import Mathlib

/-!
Shallow embedding of the Britto reminder tool (src/britto.go, and the
earlier iteration src/.britto-ng.go), together with proofs about the
claims of its specification.

All times appearing in the program are midnight-UTC calendar dates:
`main` truncates `time.Now()` to a 24-hour boundary and every other
`time.Time` value is built by `time.Date(y, m, d, 0, 0, 0, 0, time.UTC)`.
We therefore model `time.Time` as a civil (year, month, day) triple,
with the absolute-day view `absDay` mirroring the day arithmetic done by
Go's `time` package (`Sub`, `Before`, `Truncate` on midnight values).
-/

/-- A midnight-UTC `time.Time` value, as a civil calendar triple. -/
structure GoTime where
  year : Nat
  month : Nat
  day : Nat
deriving DecidableEq, Repr

/-- Go's zero `time.Time` is January 1 of year 1. -/
def zeroTime : GoTime := ⟨1, 1, 1⟩

/-- `isLeap` from Go's time package: `year%4 == 0 && (year%100 != 0 || year%400 == 0)`. -/
def isLeap (y : Nat) : Bool :=
  decide (y % 4 = 0 ∧ (¬ y % 100 = 0 ∨ y % 400 = 0))

/-- Cumulative day counts before each month in a non-leap year
(Go's `daysBefore` table). Months outside 1..12 never occur. -/
def daysBeforeMonth (m : Nat) : Nat :=
  match m with
  | 1 => 0
  | 2 => 31
  | 3 => 59
  | 4 => 90
  | 5 => 120
  | 6 => 151
  | 7 => 181
  | 8 => 212
  | 9 => 243
  | 10 => 273
  | 11 => 304
  | 12 => 334
  | _ => 365

/-- Length of month `m` in year `y` (Go's `daysIn`). -/
def daysInMonth (y m : Nat) : Nat :=
  if m = 2 then (if isLeap y then 29 else 28)
  else if m = 4 ∨ m = 6 ∨ m = 9 ∨ m = 11 then 30
  else 31

/-- Absolute day index of the civil date y-m-d, with day 0 = January 1 of
year 1, exactly the day arithmetic `time.Date` performs (365 days per
elapsed year, plus one per elapsed leap year, plus the days before the
month with the leap-February adjustment, plus the day of month). Like
`time.Date` the formula is linear in `d`, so an out-of-range day rolls
into the following month. -/
def dayNumber (y m d : Nat) : Nat :=
  365 * (y - 1) + (y - 1) / 4 - (y - 1) / 100 + (y - 1) / 400
    + daysBeforeMonth m
    + (if isLeap y ∧ 3 ≤ m then 1 else 0)
    + (d - 1)

/-- `time.Date(y, m, d, 0, 0, 0, 0, time.UTC)`: normalizes an out-of-range
day by rolling it into the following month. In this program the
arguments always satisfy `1 ≤ m ≤ 12` and `1 ≤ d ≤ 31` with `d` a valid
day of `m` in some year, so the only normalization that can occur is a
single roll (February 29 in a non-leap year becomes March 1), which this
single step performs exactly as Go does. -/
def goDate (y m d : Nat) : GoTime :=
  if daysInMonth y m < d then ⟨y, m + 1, d - daysInMonth y m⟩ else ⟨y, m, d⟩

/-- The absolute day index of a `GoTime`; differences of `absDay` are the
whole-day `Sub` differences of the corresponding midnight instants. -/
def absDay (t : GoTime) : Nat := dayNumber t.year t.month t.day

/-- `t1.Before(t2)` on midnight values. -/
def goBefore (t1 t2 : GoTime) : Bool := decide (absDay t1 < absDay t2)

/-- `int(t2.Sub(t1).Hours() / 24)` for midnight values `t1 ≤ t2`:
the exact whole-day difference (both instants are midnight UTC, so the
duration is an exact multiple of 24 h and the float arithmetic is exact). -/
def subDays (t2 t1 : GoTime) : Int := (absDay t2 : Int) - (absDay t1 : Int)

/-- A well-formed civil triple, as produced by truncating `time.Now()`:
month in 1..12 and day valid for the month. Year at least 1 (the program
runs at a real current time). -/
def isValidCivil (t : GoTime) : Bool :=
  decide (1 ≤ t.year ∧ 1 ≤ t.month ∧ t.month ≤ 12 ∧ 1 ≤ t.day ∧ t.day ≤ daysInMonth t.year t.month)

/-! ## Date-text parsing (`parseDate` in src/britto.go) -/

/-- The digit value of a character, if it is a decimal digit
(Go's layout scanner accepts exactly ASCII digits here). -/
def charDigit (c : Char) : Option Nat :=
  if '0' ≤ c ∧ c ≤ '9' then some (c.toNat - '0'.toNat) else none

def slashChar : Char := '/'

/-- Model of `time.Parse("02/01", s)`: a fixed two-digit day, a slash and
a fixed two-digit month, validated against the layout's implicit year 0
(which is a leap year, so February 29 is accepted). Returns (day, month). -/
def goParseDDMM (l : List Char) : Option (Nat × Nat) :=
  match l with
  | [a, b, s, c, e] =>
    match charDigit a, charDigit b, charDigit c, charDigit e with
    | some x1, some x2, some x3, some x4 =>
      if s = slashChar then
        if 1 ≤ 10 * x3 + x4 ∧ 10 * x3 + x4 ≤ 12 ∧ 1 ≤ 10 * x1 + x2 ∧
            10 * x1 + x2 ≤ daysInMonth 0 (10 * x3 + x4)
        then some (10 * x1 + x2, 10 * x3 + x4) else none
      else none
    | _, _, _, _ => none
  | _ => none

/-- Model of `time.Parse("02/01/2006", s)`: two-digit day, slash,
two-digit month, slash, four-digit year; the day is validated against
the parsed month and year. Returns (day, month, year). -/
def goParseDDMMYYYY (l : List Char) : Option (Nat × Nat × Nat) :=
  match l with
  | [a, b, s1, c, e, s2, f, g, h, i] =>
    match charDigit a, charDigit b, charDigit c, charDigit e,
          charDigit f, charDigit g, charDigit h, charDigit i with
    | some x1, some x2, some x3, some x4, some y1, some y2, some y3, some y4 =>
      if s1 = slashChar ∧ s2 = slashChar then
        if 1 ≤ 10 * x3 + x4 ∧ 10 * x3 + x4 ≤ 12 ∧ 1 ≤ 10 * x1 + x2 ∧
            10 * x1 + x2 ≤ daysInMonth (1000 * y1 + 100 * y2 + 10 * y3 + y4) (10 * x3 + x4)
        then some (10 * x1 + x2, 10 * x3 + x4, 1000 * y1 + 100 * y2 + 10 * y3 + y4) else none
      else none
    | _, _, _, _, _, _, _, _ => none
  | _ => none

/-- `parseDate(dateStr, now)` from src/britto.go. Note the final
`return date, year, nil` of the source: when `time.Parse` fails on a
string of length 5 or 10 the error is dropped and the zero time with
year 0 is returned with a nil error. The `strconv.Atoi(dateStr[6:])`
branch cannot fail when reached, because `time.Parse("02/01/2006", ...)`
already required those four characters to be digits. -/
def parseDate (dateStr : String) (now : GoTime) : Except String (GoTime × Nat) :=
  if dateStr.data.length = 0 then .error "date not provided"
  else if dateStr.data.length = 5 then
    match goParseDDMM dateStr.data with
    | some (dd, mo) => .ok (goDate now.year mo dd, now.year)
    | none => .ok (zeroTime, 0)
  else if dateStr.data.length = 10 then
    match goParseDDMMYYYY dateStr.data with
    | some (dd, mo, yr) => .ok (⟨yr, mo, dd⟩, yr)
    | none => .ok (zeroTime, 0)
  else .error "invalid date format"

/-! ## Template engine (`formatTemplate` in src/britto.go)

The program renders through Go's text/template with the four map keys
`Name`, `AgeOrDays`, `Due`, `Date`. We model the fragment of the
template language the program uses: literal text and `\x7b\x7b.Field\x7d\x7d`
actions (with optional surrounding spaces in the action). A `\x7b\x7b` with no
closing `\x7d\x7d`, or an action that is not a plain field access, is a parse
error — in the source this makes `formatTemplate` call `log.Fatalf`,
aborting the whole process. Executing a field that is not one of the
four map keys writes Go's `<no value>` placeholder. -/

def lbrace : Char := Char.ofNat 123
def rbrace : Char := Char.ofNat 125

/-- One parsed template segment: a literal character or a field action. -/
inductive Seg where
  | lit (c : Char)
  | field (name : String)
deriving DecidableEq, Repr

/-- Is the action content (between the braces) a plain `.Field` access,
possibly with surrounding spaces? Returns the field name. -/
def fieldOfAction (content : List Char) : Option String :=
  match content.dropWhile (· = ' ') with
  | c :: rest =>
    if c = '.' then
      let ident := rest.takeWhile (fun ch => ch ≠ ' ')
      let trail := rest.dropWhile (fun ch => ch ≠ ' ')
      if ident ≠ [] ∧ ident.all (fun ch => ch.isAlphanum) ∧ trail.all (· = ' ')
      then some (String.mk ident) else none
    else none
  | [] => none

/-- The template scanner, one pass over the text. The first argument is
the mode: `none` scans literal text, `some acc` is inside an action with
the characters read so far (reversed). In text mode an opening double
brace starts an action and any other character (including a lone opening
brace) is literal; in action mode a closing double brace ends the action
(which must be a plain field access) and running out of input with the
action still open is a parse error. -/
def scanT : Option (List Char) → List Char → Option (List Seg)
  | none, [] => some []
  | none, [c] => some [Seg.lit c]
  | none, c :: c2 :: rest2 =>
    if c = lbrace ∧ c2 = lbrace then scanT (some []) rest2
    else (scanT none (c2 :: rest2)).map (fun segs => Seg.lit c :: segs)
  | some _, [] => none
  | some _, [_] => none
  | some acc, c :: c2 :: rest2 =>
    if c = rbrace ∧ c2 = rbrace then
      match fieldOfAction acc.reverse with
      | some f => (scanT none rest2).map (fun segs => Seg.field f :: segs)
      | none => none
    else scanT (some (c :: acc)) (c2 :: rest2)

/-- Scan template text into segments; `none` is a template parse error. -/
def scanTmpl (l : List Char) : Option (List Seg) := scanT none l

/-- Execute parsed segments against the four-key map of `formatTemplate`. -/
def execSegs (segs : List Seg) (name ageOrDays due date : String) : String :=
  match segs with
  | [] => ""
  | Seg.lit c :: rest => String.mk [c] ++ execSegs rest name ageOrDays due date
  | Seg.field f :: rest =>
    (if f = "Name" then name
     else if f = "AgeOrDays" then ageOrDays
     else if f = "Due" then due
     else if f = "Date" then date
     else "<no value>") ++ execSegs rest name ageOrDays due date

/-- `formatTemplate` from src/britto.go: parse the template string, then
execute it on the map `Name/AgeOrDays/Due/Date`. A parse failure is
`log.Fatalf("Failed to parse template: ...")` — modelled as an error
value that aborts the whole run. Execution of this fragment on a
string map cannot fail. -/
def formatTemplate (tmplStr name ageOrDays due date : String) : Except String String :=
  match scanTmpl tmplStr.data with
  | none => .error "Failed to parse template"
  | some segs => .ok (execSegs segs name ageOrDays due date)

/-! ## Date formatting (`time.Time.Format`)

The program formats dates with the configured layout strings; the
default configuration uses the Go layout tokens `02` (two-digit day),
`01` (two-digit month), `2006` (four-digit year) and `06` (two-digit
year), with everything else literal. We model exactly this token set. -/

/-- Zero-pad a number to two digits, as Go's layout tokens `01`/`02`/`06` do. -/
def pad2 (n : Nat) : String := if n < 10 then "0" ++ toString n else toString n

/-- Zero-pad a year to four digits, as Go's layout token `2006` does. -/
def pad4 (n : Nat) : String :=
  if n < 10 then "000" ++ toString n
  else if n < 100 then "00" ++ toString n
  else if n < 1000 then "0" ++ toString n
  else toString n

/-- Interpret a Go date layout over the tokens used by this program. -/
def goFormatAux (y m d : Nat) (l : List Char) : String :=
  match l with
  | '2' :: '0' :: '0' :: '6' :: rest => pad4 y ++ goFormatAux y m d rest
  | '0' :: '1' :: rest => pad2 m ++ goFormatAux y m d rest
  | '0' :: '2' :: rest => pad2 d ++ goFormatAux y m d rest
  | '0' :: '6' :: rest => pad2 (y % 100) ++ goFormatAux y m d rest
  | c :: rest => String.mk [c] ++ goFormatAux y m d rest
  | [] => ""

/-- `t.Format(layout)` for the layouts this program uses. -/
def goFormat (t : GoTime) (layout : String) : String :=
  goFormatAux t.year t.month t.day layout.data

/-! ## Data model and reminder processing (src/britto.go) -/

/-- A `Reminder` record from the TOML configuration. -/
structure Reminder where
  name : String
  date : String
  message : String
  reminderRange : Option Int
deriving DecidableEq, Repr

/-- The `template` table of the configuration. -/
structure TemplateConfig where
  dueToday : String
  dueTomorrow : String
  dueIn : String
  dateFormatShort : String
  dateFormat : String
  birthday0 : String
  birthday : String
  reminder : String
deriving DecidableEq, Repr

/-- `defaultTemplate` from src/britto.go. -/
def defaultTemplate : TemplateConfig :=
  { dueToday := "today"
    dueTomorrow := "tomorrow"
    dueIn := "in \x7b\x7b.AgeOrDays\x7d\x7d days"
    dateFormatShort := "01/06"
    dateFormat := "02/01/2006"
    birthday0 := "[\x7b\x7b.Name\x7d\x7d]'s birthday is \x7b\x7b.Due\x7d\x7d! \x7b\x7b.Date\x7d\x7d\n"
    birthday := "[\x7b\x7b.Name\x7d\x7d] is turning \x7b\x7b.AgeOrDays\x7d\x7d years old \x7b\x7b.Due\x7d\x7d! \x7b\x7b.Date\x7d\x7d"
    reminder := "[\x7b\x7b.Name\x7d\x7d] is due \x7b\x7b.Due\x7d\x7d! \x7b\x7b.Date\x7d\x7d - \x7b\x7b.Due\x7d\x7d" }

/-- The result of a processing run: the lines printed to standard output,
the diagnostics written to the log, and — when `log.Fatalf` fired — the
fatal message that aborted the process at that point (everything after
it is not processed). -/
structure ProcResult where
  lines : List String
  diags : List String
  fatal : Option String
deriving DecidableEq, Repr

/-- `strings.ReplaceAll` on character lists: replace each non-overlapping
occurrence of the (non-empty) pattern, scanning left to right. The fuel
argument is the input length, which bounds the number of steps. -/
def replaceAllAux (pattern repl : List Char) : Nat → List Char → List Char
  | _, [] => []
  | 0, l => l
  | fuel + 1, c :: rest =>
    if pattern ≠ [] ∧ pattern.isPrefixOf (c :: rest) then
      repl ++ replaceAllAux pattern repl fuel (List.drop (pattern.length - 1) rest)
    else c :: replaceAllAux pattern repl fuel rest

/-- `strings.ReplaceAll(s, pattern, repl)`. -/
def replaceAll (s pattern repl : String) : String :=
  String.mk (replaceAllAux pattern.data repl.data s.data.length s.data)

/-- The due phrase of `printReminder`: the today/tomorrow literals or the
`due_in` template with `\x7b\x7b.AgeOrDays\x7d\x7d` textually replaced
(`strings.ReplaceAll`) by the day count. -/
def duePhrase (cfg : TemplateConfig) (daysUntilDate : Int) : String :=
  if daysUntilDate = 0 then cfg.dueToday
  else if daysUntilDate = 1 then cfg.dueTomorrow
  else replaceAll cfg.dueIn "\x7b\x7b.AgeOrDays\x7d\x7d" (toString daysUntilDate)

/-- `age := nextDate.Year() - year` (Go int subtraction). -/
def birthdayAge (nextDate : GoTime) (year : Nat) : Int :=
  (nextDate.year : Int) - (year : Int)

/-- Template choice inside `printReminder`: the zero-age template iff the
computed age is 0. -/
def selectBirthdayTmpl (cfg : TemplateConfig) (age : Int) : String :=
  if age = 0 then cfg.birthday0 else cfg.birthday

/-- The `printReminder` closure of `processReminders`: renders the primary
line (a fatal template error aborts the run before anything of this
entry is printed) and appends the free-text message line when non-empty. -/
def printReminder (reminder : Reminder) (isBirthday : Bool) (cfg : TemplateConfig)
    (daysUntilDate : Int) (nextDate : GoTime) (year : Nat) : Except String (List String) :=
  match (if isBirthday then
           formatTemplate (selectBirthdayTmpl cfg (birthdayAge nextDate year)) reminder.name
             (toString (birthdayAge nextDate year)) (duePhrase cfg daysUntilDate)
             (goFormat nextDate cfg.dateFormat)
         else
           formatTemplate cfg.reminder reminder.name (toString daysUntilDate)
             (duePhrase cfg daysUntilDate) (goFormat nextDate cfg.dateFormatShort)) with
  | .error e => .error e
  | .ok line => .ok (line :: (if reminder.message = "" then [] else [reminder.message]))

/-- The effective window: the entry's `ReminderRange` override when
present, else the category default. -/
def effectiveRange (reminder : Reminder) (defaultRange : Int) : Int :=
  match reminder.reminderRange with
  | some o => o
  | none => defaultRange

/-- The window condition of the source,
`daysUntilDate <= rangeDays && daysUntilDate >= 0`. -/
def isDue (daysUntilDate rangeDays : Int) : Bool :=
  decide (daysUntilDate ≤ rangeDays ∧ 0 ≤ daysUntilDate)

/-- One candidate occurrence of the inner loop:
`time.Date(now.Year()+yearsAhead, date.Month(), date.Day(), 0, 0, 0, 0, time.UTC)`. -/
def candidate (now date : GoTime) (yearsAhead : Nat) : GoTime :=
  goDate (now.year + yearsAhead) date.month date.day

/-- One iteration of the inner loop over `yearsAhead`: skip a candidate
strictly before `now`; otherwise compute `daysUntilDate` and keep the
candidate when it is inside the window. -/
def occCheck (now : GoTime) (rangeDays : Int) (nextDate : GoTime) : Option (Int × GoTime) :=
  if goBefore nextDate now then none
  else if isDue (subDays nextDate now) rangeDays then some (subDays nextDate now, nextDate)
  else none

/-- The inner `for _, yearsAhead := range []int{0, 1}` loop: the first
candidate that passes `occCheck` is printed and the loop breaks. -/
def pickOccurrence (now date : GoTime) (rangeDays : Int) : Option (Int × GoTime) :=
  match occCheck now rangeDays (candidate now date 0) with
  | some r => some r
  | none => occCheck now rangeDays (candidate now date 1)

/-- The occurrence the loop effectively works from: the first of the two
candidates that passes the `nextDate.Before(now)` check, i.e. the
earliest candidate not strictly before `now`. -/
def nextOccurrence (now date : GoTime) : GoTime :=
  if goBefore (candidate now date 0) now then candidate now date 1 else candidate now date 0

/-- The observable effect of one iteration of the outer loop of
`processReminders` on one entry. -/
inductive EntryOutcome where
  | diag (msg : String)
  | silent
  | printed (ls : List String)
  | fatalT (e : String)
deriving DecidableEq, Repr

/-- The body of the outer loop of `processReminders` for one `reminder`:
a date parse error logs a diagnostic and continues; a parsed year
strictly below the current year skips the entry (`continue`); otherwise
the two candidate years are tried and a window match prints. A template
parse failure inside `printReminder` is `log.Fatalf`, killing the whole
process. -/
def entryOutcome (reminder : Reminder) (now : GoTime) (isBirthday : Bool)
    (defaultRange : Int) (cfg : TemplateConfig) : EntryOutcome :=
  match parseDate reminder.date now with
  | .error e => .diag ("[" ++ reminder.name ++ "]: Failed to parse date: " ++ e)
  | .ok (date, year) =>
    if year > 0 ∧ now.year > year then .silent
    else
      match pickOccurrence now date (effectiveRange reminder defaultRange) with
      | none => .silent
      | some (daysUntilDate, nextDate) =>
        match printReminder reminder isBirthday cfg daysUntilDate nextDate year with
        | .error e => .fatalT e
        | .ok ls => .printed ls

/-- `processReminders` from src/britto.go: the outer loop over the
reminder list, accumulating printed lines and logged diagnostics in
input order. A `log.Fatalf` from a template parse failure stops the
run at that entry; output already produced stays, later entries are
never processed. -/
def processReminders (reminders : List Reminder) (now : GoTime) (isBirthday : Bool)
    (defaultRange : Int) (cfg : TemplateConfig) : ProcResult :=
  match reminders with
  | [] => ⟨[], [], none⟩
  | reminder :: rest =>
    match entryOutcome reminder now isBirthday defaultRange cfg with
    | .diag m =>
      let r := processReminders rest now isBirthday defaultRange cfg
      ⟨r.lines, m :: r.diags, r.fatal⟩
    | .silent => processReminders rest now isBirthday defaultRange cfg
    | .printed ls =>
      let r := processReminders rest now isBirthday defaultRange cfg
      ⟨ls ++ r.lines, r.diags, r.fatal⟩
    | .fatalT e => ⟨[], [], some e⟩

/-- `ReminderRange` defaults from the configuration. -/
structure RangeConfig where
  birthdays : Int
  events : Int
deriving DecidableEq, Repr

/-- The full configuration passed to the core. -/
structure BrittoConfig where
  birthdayList : List Reminder
  reminderList : List Reminder
  reminderRange : RangeConfig
  template : TemplateConfig
deriving DecidableEq, Repr

/-- The processing part of `main`: `now` is captured once, birthdays are
processed first, then generic events; a fatal abort during the birthday
pass prevents the event pass from running. -/
def runBatch (config : BrittoConfig) (now : GoTime) : ProcResult :=
  let b := processReminders config.birthdayList now true config.reminderRange.birthdays config.template
  match b.fatal with
  | some _ => b
  | none =>
    let ev := processReminders config.reminderList now false config.reminderRange.events config.template
    ⟨b.lines ++ ev.lines, b.diags ++ ev.diags, ev.fatal⟩

/-! ## The earlier iteration src/.britto-ng.go

Claim C6 is about this iteration: its `parseDate` takes the
`oneTimeEvent` flag and rejects a one-time event whose date text is not
the 10-character year-bearing form. Output is produced by `fmt.Printf`
with fixed format strings; we record each printed line without its
terminating newline. -/

namespace NG

/-- A `Reminder` record of .britto-ng.go. -/
structure Reminder where
  name : String
  date : String
  message : String
  oneTimeEvent : Bool
deriving DecidableEq, Repr

/-- `parseDate(dateStr, now, oneTimeEvent)` from src/.britto-ng.go.
As in britto.go the final `return date, year, nil` drops `time.Parse`
errors, but the one-time check (`oneTimeEvent && len(dateStr) != 10`)
runs before that return, so every one-time entry whose text is not
10 characters long fails — for the 5-character yearless form this is
the missing-year error. -/
def parseDate (dateStr : String) (now : GoTime) (oneTimeEvent : Bool) :
    Except String (GoTime × Nat) :=
  if dateStr.data.length = 0 then .error "date not provided"
  else if dateStr.data.length = 5 then
    if oneTimeEvent then .error "one-time event requires year specification"
    else
      match goParseDDMM dateStr.data with
      | some (dd, mo) => .ok (goDate now.year mo dd, now.year)
      | none => .ok (zeroTime, 0)
  else if dateStr.data.length = 10 then
    match goParseDDMMYYYY dateStr.data with
    | some (dd, mo, yr) => .ok (⟨yr, mo, dd⟩, yr)
    | none => .ok (zeroTime, 0)
  else .error "invalid date format"

/-- `t.AddDate(1, 0, 0)`. -/
def addYear (t : GoTime) : GoTime := goDate (t.year + 1) t.month t.day

/-- The due phrase of .britto-ng.go (`today`, `tomorrow`, or
`fmt.Sprintf("in %d days", daysUntilDate)`). -/
def duePhrase (daysUntilDate : Int) : String :=
  if daysUntilDate = 0 then "today"
  else if daysUntilDate = 1 then "tomorrow"
  else "in " ++ toString daysUntilDate ++ " days"

/-- The body printed when a candidate occurrence is inside the window
(the first `if` block of the loop). `yearBump` is 0 in the first block
and 1 in the wraparound block, whose aged line uses `now.Year()+1`. -/
def printBlock (reminder : Reminder) (now date : GoTime) (defaultMsg : String)
    (isBirthday : Bool) (daysUntilDate : Int) (year : Nat) (yearBump : Nat)
    (firstBlock : Bool) : List String :=
  let due := duePhrase daysUntilDate
  let msg := if reminder.message = "" then defaultMsg else reminder.message
  if isBirthday then
    let age : Int := ((now.year + yearBump : Nat) : Int) - (year : Int)
    if firstBlock ∧ age = 0 then
      ["[" ++ reminder.name ++ "]'s birthday is " ++ due ++ "! " ++ goFormat date "02/01"]
    else
      ["[" ++ reminder.name ++ "] is turning " ++ toString age ++ " years old " ++ due
        ++ "! " ++ goFormat date "02/01/2006"]
  else
    ["[" ++ reminder.name ++ "] is due " ++ due ++ "! " ++ goFormat date "02/01" ++ " - " ++ msg]

/-- `processReminders` from src/.britto-ng.go: parse, roll a passed
current-year occurrence to next year, print when inside the window, and
finally (the dead wraparound block of the source) re-check after another
roll when the day offset came out negative. -/
def processReminders (reminders : List Reminder) (now : GoTime) (defaultMsg : String)
    (isBirthday : Bool) (rangeDays : Int) : List String × List String :=
  match reminders with
  | [] => ([], [])
  | reminder :: rest =>
    match parseDate reminder.date now reminder.oneTimeEvent with
    | .error e =>
      ((processReminders rest now defaultMsg isBirthday rangeDays).1,
       ("[" ++ reminder.name ++ "]: Failed to parse date: " ++ e)
         :: (processReminders rest now defaultMsg isBirthday rangeDays).2)
    | .ok (date, year) =>
      let nd0 := goDate now.year date.month date.day
      let nextDate := if goBefore nd0 now then addYear nd0 else nd0
      let daysUntilDate := subDays nextDate now
      let out1 :=
        if daysUntilDate ≤ rangeDays ∧ 0 ≤ daysUntilDate then
          printBlock reminder now date defaultMsg isBirthday daysUntilDate year 0 true
        else []
      let out2 :=
        if daysUntilDate < 0 then
          if subDays (addYear nextDate) now ≤ rangeDays ∧ 0 ≤ subDays (addYear nextDate) now then
            printBlock reminder now date defaultMsg isBirthday (subDays (addYear nextDate) now)
              year 1 false
          else []
        else []
      (out1 ++ out2 ++ (processReminders rest now defaultMsg isBirthday rangeDays).1,
       (processReminders rest now defaultMsg isBirthday rangeDays).2)

end NG

/-! ## Calendar arithmetic lemmas -/

lemma isLeap_iff (y : Nat) : isLeap y = true ↔ (y % 4 = 0 ∧ (¬ y % 100 = 0 ∨ y % 400 = 0)) := by
  simp [isLeap]

lemma leap_arith (y : Nat) (h : isLeap y = true) :
    y % 4 = 0 ∧ (¬ y % 100 = 0 ∨ y % 400 = 0) := (isLeap_iff y).mp h

lemma not_leap_arith (y : Nat) (h : ¬ isLeap y = true) :
    ¬ (y % 4 = 0 ∧ (¬ y % 100 = 0 ∨ y % 400 = 0)) := fun hp => h ((isLeap_iff y).mpr hp)

lemma daysInMonth_le_31 (y m : Nat) : daysInMonth y m ≤ 31 := by
  unfold daysInMonth; split_ifs <;> omega

lemma daysInMonth_ge_28 (y m : Nat) : 28 ≤ daysInMonth y m := by
  unfold daysInMonth; split_ifs <;> omega

/-- `goDate` keeps the year, produces a valid month/day pair, and
preserves the absolute day count given by the linear formula
(normalization only moves an overflowing day into the next month). -/
lemma goDate_spec (y m d : Nat) (hm1 : 1 ≤ m) (hm2 : m ≤ 12) (hd1 : 1 ≤ d) (hd2 : d ≤ 31) :
    (goDate y m d).year = y ∧ 1 ≤ (goDate y m d).month ∧ (goDate y m d).month ≤ 12 ∧
    1 ≤ (goDate y m d).day ∧ (goDate y m d).day ≤ daysInMonth y (goDate y m d).month ∧
    absDay (goDate y m d) = dayNumber y m d := by
  unfold goDate
  split
  · rename_i hov
    by_cases hL : isLeap y = true <;>
      (interval_cases m <;>
        simp_all [daysInMonth, absDay, dayNumber, daysBeforeMonth, hL] <;> omega)
  · rename_i hov
    exact ⟨rfl, hm1, hm2, hd1, by show d ≤ daysInMonth y m; omega, rfl⟩

lemma dayNumber_year_start_le (y m d : Nat) (hm1 : 1 ≤ m) (hm2 : m ≤ 12) :
    dayNumber y 1 1 ≤ dayNumber y m d := by
  by_cases hL : isLeap y = true <;>
    (interval_cases m <;> simp [dayNumber, daysBeforeMonth, hL] <;> omega)

lemma dayNumber_le_year_end (y m d : Nat) (hm1 : 1 ≤ m) (hm2 : m ≤ 12)
    (hd2 : d ≤ daysInMonth y m) :
    dayNumber y m d ≤ dayNumber y 12 31 := by
  by_cases hL : isLeap y = true
  · interval_cases m <;>
      (simp [daysInMonth, hL] at hd2 <;> simp [dayNumber, daysBeforeMonth, hL] <;> omega)
  · have hLf : isLeap y = false := by simpa using hL
    interval_cases m <;>
      (simp [daysInMonth, hLf] at hd2 <;> simp [dayNumber, daysBeforeMonth, hLf] <;> omega)

lemma dayNumber_jan1 (y : Nat) :
    dayNumber y 1 1 = 365 * (y - 1) + (y - 1) / 4 - (y - 1) / 100 + (y - 1) / 400 := by
  unfold dayNumber
  rw [if_neg (fun h => absurd h.2 (by omega))]
  rfl

lemma dayNumber_dec31 (y : Nat) :
    dayNumber y 12 31 = 365 * (y - 1) + (y - 1) / 4 - (y - 1) / 100 + (y - 1) / 400
      + 334 + (if isLeap y then 1 else 0) + 30 := by
  unfold dayNumber
  by_cases hL : isLeap y = true
  · rw [if_pos ⟨hL, by omega⟩, if_pos hL]
    simp [daysBeforeMonth]
  · rw [if_neg (fun h => hL h.1), if_neg hL]
    simp [daysBeforeMonth]

set_option maxHeartbeats 2000000 in
lemma dayNumber_succ_year (y : Nat) (hy : 1 ≤ y) :
    dayNumber (y + 1) 1 1 = dayNumber y 12 31 + 1 := by
  rw [dayNumber_jan1, dayNumber_dec31]
  by_cases hL : isLeap y = true
  · have ha := leap_arith y hL
    rw [if_pos hL]
    clear hL
    omega
  · have ha := not_leap_arith y hL
    rw [if_neg hL]
    clear hL
    omega

lemma dayNumber_lt_next_year (y m d : Nat) (hy : 1 ≤ y) (hm1 : 1 ≤ m) (hm2 : m ≤ 12)
    (hd2 : d ≤ daysInMonth y m) :
    dayNumber y m d < dayNumber (y + 1) 1 1 := by
  have h1 := dayNumber_le_year_end y m d hm1 hm2 hd2
  have h2 := dayNumber_succ_year y hy
  omega

/-! ## Parsing and occurrence lemmas -/

lemma isValidCivil_iff (t : GoTime) :
    isValidCivil t = true ↔
      (1 ≤ t.year ∧ 1 ≤ t.month ∧ t.month ≤ 12 ∧ 1 ≤ t.day ∧
        t.day ≤ daysInMonth t.year t.month) := by
  simp [isValidCivil]

lemma goParseDDMM_bounds (l : List Char) (dd mo : Nat) (h : goParseDDMM l = some (dd, mo)) :
    1 ≤ mo ∧ mo ≤ 12 ∧ 1 ≤ dd ∧ dd ≤ 31 := by
  unfold goParseDDMM at h
  split at h
  · split at h
    · split at h
      · split at h
        · have h31 := daysInMonth_le_31 0 mo
          simp_all
          omega
        · simp at h
      · simp at h
    · simp at h
  · simp at h

lemma goParseDDMMYYYY_bounds (l : List Char) (dd mo yr : Nat)
    (h : goParseDDMMYYYY l = some (dd, mo, yr)) :
    1 ≤ mo ∧ mo ≤ 12 ∧ 1 ≤ dd ∧ dd ≤ daysInMonth yr mo := by
  unfold goParseDDMMYYYY at h
  split at h
  · split at h
    · split at h
      · split at h
        · simp_all
        · simp at h
      · simp at h
    · simp at h
  · simp at h

lemma parseDate_ok_bounds (s : String) (now : GoTime) (date : GoTime) (yr : Nat)
    (h : parseDate s now = .ok (date, yr)) :
    1 ≤ date.month ∧ date.month ≤ 12 ∧ 1 ≤ date.day ∧ date.day ≤ 31 := by
  unfold parseDate at h
  by_cases h0 : s.data.length = 0
  · rw [if_pos h0] at h
    exact Except.noConfusion h
  · rw [if_neg h0] at h
    by_cases h5 : s.data.length = 5
    · rw [if_pos h5] at h
      cases hp : goParseDDMM s.data with
      | some v =>
        obtain ⟨dd, mo⟩ := v
        rw [hp] at h
        simp only [Except.ok.injEq, Prod.mk.injEq] at h
        obtain ⟨hdate, hyr⟩ := h
        subst hdate
        have hb := goParseDDMM_bounds s.data dd mo hp
        have hg := goDate_spec now.year mo dd hb.1 hb.2.1 hb.2.2.1 hb.2.2.2
        have h31 := daysInMonth_le_31 now.year (goDate now.year mo dd).month
        exact ⟨hg.2.1, hg.2.2.1, hg.2.2.2.1, by omega⟩
      | none =>
        rw [hp] at h
        simp only [Except.ok.injEq, Prod.mk.injEq] at h
        obtain ⟨hdate, hyr⟩ := h
        subst hdate
        decide
    · rw [if_neg h5] at h
      by_cases h10 : s.data.length = 10
      · rw [if_pos h10] at h
        cases hp : goParseDDMMYYYY s.data with
        | some v =>
          obtain ⟨dd, mo, yr2⟩ := v
          rw [hp] at h
          simp only [Except.ok.injEq, Prod.mk.injEq] at h
          obtain ⟨hdate, hyr⟩ := h
          subst hdate
          have hb := goParseDDMMYYYY_bounds s.data dd mo yr2 hp
          have h31 := daysInMonth_le_31 yr2 mo
          exact ⟨hb.1, hb.2.1, hb.2.2.1, show dd ≤ 31 by omega⟩
        | none =>
          rw [hp] at h
          simp only [Except.ok.injEq, Prod.mk.injEq] at h
          obtain ⟨hdate, hyr⟩ := h
          subst hdate
          decide
      · rw [if_neg h10] at h
        exact Except.noConfusion h

lemma occCheck_eq_some (now nd : GoTime) (r dU : Int) (nd2 : GoTime)
    (h : occCheck now r nd = some (dU, nd2)) :
    nd2 = nd ∧ dU = subDays nd now ∧ absDay now ≤ absDay nd ∧ 0 ≤ dU ∧ dU ≤ r := by
  unfold occCheck at h
  split_ifs at h with hb hd
  all_goals first
    | exact Option.noConfusion h
    | (simp only [Option.some.injEq, Prod.mk.injEq] at h
       obtain ⟨h1, h2⟩ := h
       subst h1
       subst h2
       simp only [goBefore, decide_eq_true_eq] at hb
       simp only [isDue, decide_eq_true_eq] at hd
       exact ⟨rfl, rfl, by omega, hd.2, hd.1⟩)

lemma occCheck_some_of (now nd : GoTime) (r : Int)
    (hb : absDay now ≤ absDay nd) (hd : subDays nd now ≤ r) :
    occCheck now r nd = some (subDays nd now, nd) := by
  have hb2 : ¬ goBefore nd now = true := by
    simp only [goBefore, decide_eq_true_eq]
    omega
  have hd2 : isDue (subDays nd now) r = true := by
    simp only [subDays] at hd
    simp only [isDue, decide_eq_true_eq, subDays]
    omega
  unfold occCheck
  rw [if_neg hb2, if_pos hd2]

lemma occCheck_none_far (now nd : GoTime) (r : Int)
    (hfar : r < subDays nd now) : occCheck now r nd = none := by
  have hd : ¬ isDue (subDays nd now) r = true := by
    simp only [isDue, decide_eq_true_eq]
    omega
  unfold occCheck
  by_cases hb : goBefore nd now = true
  · rw [if_pos hb]
  · rw [if_neg hb, if_neg hd]

lemma absDay_lt_next_of_valid (t : GoTime) (hv : isValidCivil t = true) :
    absDay t < dayNumber (t.year + 1) 1 1 := by
  obtain ⟨hy, hm1, hm2, hd1, hd2⟩ := (isValidCivil_iff t).mp hv
  exact dayNumber_lt_next_year t.year t.month t.day hy hm1 hm2 hd2

lemma goDate_lt_next_year_start (y m d : Nat) (hy : 1 ≤ y) (hm1 : 1 ≤ m) (hm2 : m ≤ 12)
    (hd1 : 1 ≤ d) (hd2 : d ≤ 31) :
    absDay (goDate y m d) < dayNumber (y + 1) 1 1 := by
  have hg := goDate_spec y m d hm1 hm2 hd1 hd2
  have hlt := dayNumber_lt_next_year y (goDate y m d).month (goDate y m d).day hy
    hg.2.1 hg.2.2.1 hg.2.2.2.2.1
  have e : absDay (goDate y m d)
      = dayNumber (goDate y m d).year (goDate y m d).month (goDate y m d).day := rfl
  rw [hg.1] at e
  omega

lemma dayNumber_le_goDate_abs (y m d : Nat) (hm1 : 1 ≤ m) (hm2 : m ≤ 12)
    (hd1 : 1 ≤ d) (hd2 : d ≤ 31) :
    dayNumber y 1 1 ≤ absDay (goDate y m d) := by
  have hg := goDate_spec y m d hm1 hm2 hd1 hd2
  have h := dayNumber_year_start_le y m d hm1 hm2
  have e := hg.2.2.2.2.2
  omega

/-! ## Structural lemmas about the processing loop -/

lemma printReminder_ok_lines (reminder : Reminder) (isB : Bool) (cfg : TemplateConfig)
    (dU : Int) (nd : GoTime) (yr : Nat) (ls : List String)
    (h : printReminder reminder isB cfg dU nd yr = .ok ls) :
    ls.length ≤ 2 ∧ (reminder.message = "" → ls.length ≤ 1) := by
  unfold printReminder at h
  split at h
  · exact Except.noConfusion h
  · simp only [Except.ok.injEq] at h
    subst h
    by_cases hm : reminder.message = ""
    · rw [if_pos hm]
      simp
    · rw [if_neg hm]
      simp [hm]

lemma processReminders_cons_diag (x : Reminder) (rest : List Reminder) (now : GoTime)
    (isB : Bool) (dR : Int) (cfg : TemplateConfig) (m : String)
    (h : entryOutcome x now isB dR cfg = .diag m) :
    processReminders (x :: rest) now isB dR cfg =
      ⟨(processReminders rest now isB dR cfg).lines,
       m :: (processReminders rest now isB dR cfg).diags,
       (processReminders rest now isB dR cfg).fatal⟩ := by
  simp only [processReminders, h]

lemma processReminders_cons_silent (x : Reminder) (rest : List Reminder) (now : GoTime)
    (isB : Bool) (dR : Int) (cfg : TemplateConfig)
    (h : entryOutcome x now isB dR cfg = .silent) :
    processReminders (x :: rest) now isB dR cfg =
      processReminders rest now isB dR cfg := by
  simp only [processReminders, h]

lemma processReminders_cons_printed (x : Reminder) (rest : List Reminder) (now : GoTime)
    (isB : Bool) (dR : Int) (cfg : TemplateConfig) (ls : List String)
    (h : entryOutcome x now isB dR cfg = .printed ls) :
    processReminders (x :: rest) now isB dR cfg =
      ⟨ls ++ (processReminders rest now isB dR cfg).lines,
       (processReminders rest now isB dR cfg).diags,
       (processReminders rest now isB dR cfg).fatal⟩ := by
  simp only [processReminders, h]

lemma processReminders_cons_fatal (x : Reminder) (rest : List Reminder) (now : GoTime)
    (isB : Bool) (dR : Int) (cfg : TemplateConfig) (e : String)
    (h : entryOutcome x now isB dR cfg = .fatalT e) :
    processReminders (x :: rest) now isB dR cfg = ⟨[], [], some e⟩ := by
  simp only [processReminders, h]

lemma entryOutcome_of_parse_error (x : Reminder) (now : GoTime) (isB : Bool) (dR : Int)
    (cfg : TemplateConfig) (e : String) (h : parseDate x.date now = .error e) :
    entryOutcome x now isB dR cfg =
      .diag ("[" ++ x.name ++ "]: Failed to parse date: " ++ e) := by
  unfold entryOutcome
  rw [h]

lemma processReminders_append (xs ys : List Reminder) (now : GoTime) (isB : Bool)
    (dR : Int) (cfg : TemplateConfig)
    (h : (processReminders xs now isB dR cfg).fatal = none) :
    processReminders (xs ++ ys) now isB dR cfg =
      ⟨(processReminders xs now isB dR cfg).lines
         ++ (processReminders ys now isB dR cfg).lines,
       (processReminders xs now isB dR cfg).diags
         ++ (processReminders ys now isB dR cfg).diags,
       (processReminders ys now isB dR cfg).fatal⟩ := by
  induction xs with
  | nil => simp [processReminders]
  | cons x xs ih =>
    cases hx : entryOutcome x now isB dR cfg with
    | diag m =>
      have hh := h
      rw [processReminders_cons_diag x xs now isB dR cfg m hx] at hh
      rw [List.cons_append, processReminders_cons_diag x (xs ++ ys) now isB dR cfg m hx,
        processReminders_cons_diag x xs now isB dR cfg m hx, ih hh]
      simp
    | silent =>
      have hh := h
      rw [processReminders_cons_silent x xs now isB dR cfg hx] at hh
      rw [List.cons_append, processReminders_cons_silent x (xs ++ ys) now isB dR cfg hx,
        processReminders_cons_silent x xs now isB dR cfg hx, ih hh]
    | printed ls =>
      have hh := h
      rw [processReminders_cons_printed x xs now isB dR cfg ls hx] at hh
      rw [List.cons_append, processReminders_cons_printed x (xs ++ ys) now isB dR cfg ls hx,
        processReminders_cons_printed x xs now isB dR cfg ls hx, ih hh]
      simp
    | fatalT e =>
      have hh := h
      rw [processReminders_cons_fatal x xs now isB dR cfg e hx] at hh
      simp at hh

lemma occCheck_none_inv (now nd : GoTime) (r : Int)
    (h : occCheck now r nd = none) (hb : absDay now ≤ absDay nd) :
    r < subDays nd now := by
  unfold occCheck at h
  split_ifs at h with h1 h2
  all_goals first
    | exact Option.noConfusion h
    | (exfalso
       simp only [goBefore, decide_eq_true_eq] at h1
       omega)
    | (simp only [isDue, decide_eq_true_eq] at h2
       have h0 : (0 : Int) ≤ subDays nd now := by
         simp only [subDays]
         omega
       omega)

lemma entryOutcome_printed_inv (x : Reminder) (now : GoTime) (isB : Bool) (dR : Int)
    (cfg : TemplateConfig) (ls : List String)
    (h : entryOutcome x now isB dR cfg = .printed ls) :
    ∃ dU nd yr, printReminder x isB cfg dU nd yr = .ok ls := by
  unfold entryOutcome at h
  split at h
  · exact EntryOutcome.noConfusion h
  · rename_i dateT yearN heq
    split_ifs at h
    split at h
    · exact EntryOutcome.noConfusion h
    · rename_i dU nd hpick
      split at h
      · exact EntryOutcome.noConfusion h
      · rename_i ls2 hprint
        refine ⟨dU, nd, yearN, ?_⟩
        rw [hprint]
        simp only [EntryOutcome.printed.injEq] at h
        rw [h]

/-! ## Claim theorems -/

/-- C1: on the spec's Scenario A (now = 2024-12-20, birthday reminder
"25/12/1985", window 10) the date resolves successfully to December 25
with origin year 1985, yet `processReminders` renders nothing at all:
the `year > 0 && now.Year() > year` guard of src/britto.go skips every
reminder whose parsed year lies strictly in the past, so no aged-birthday
line (daysUntil 5, age 39) is ever produced. -/
theorem c1_scenarioA_past_year_skipped :
    parseDate "25/12/1985" ⟨2024, 12, 20⟩ = .ok (⟨1985, 12, 25⟩, 1985) ∧
    processReminders [⟨"John Doe", "25/12/1985", "", none⟩] ⟨2024, 12, 20⟩ true 10
        defaultTemplate = ⟨[], [], none⟩ := by
  constructor
  · rfl
  · rfl

/-- C4: the window matcher of `processReminders` matches exactly when
`0 ≤ daysUntil ≤ effectiveRange`, where the effective range is the
entry's override when present and the category default otherwise; the
boundary day `d = r` matches whenever the window is non-negative,
`d = r + 1` never matches, and the override takes precedence. -/
theorem c4_window_match_iff (d : Int) (rem : Reminder) (defR : Int) :
    (isDue d (effectiveRange rem defR) = true ↔
      0 ≤ d ∧ d ≤ effectiveRange rem defR) ∧
    (∀ o : Int, rem.reminderRange = some o → effectiveRange rem defR = o) ∧
    (rem.reminderRange = none → effectiveRange rem defR = defR) ∧
    (0 ≤ effectiveRange rem defR →
      isDue (effectiveRange rem defR) (effectiveRange rem defR) = true) ∧
    isDue (effectiveRange rem defR + 1) (effectiveRange rem defR) = false := by
  refine ⟨?_, ?_, ?_, ?_, ?_⟩
  · simp only [isDue, decide_eq_true_eq]
    exact and_comm
  · intro o ho
    simp [effectiveRange, ho]
  · intro ho
    simp [effectiveRange, ho]
  · intro h0
    simp only [isDue, decide_eq_true_eq]
    omega
  · simp only [isDue, decide_eq_false_iff_not]
    omega

/-- Witness for C4, at the spec's Scenario E: override 25 beats the
category default 15 and day offset 20 is matched. -/
theorem c4_window_match_iff_witness :
    effectiveRange ⟨"Event", "20/07", "", some 25⟩ 15 = 25 ∧
    isDue 20 (effectiveRange ⟨"Event", "20/07", "", some 25⟩ 15) = true :=
  ⟨(c4_window_match_iff 20 ⟨"Event", "20/07", "", some 25⟩ 15).2.1 25 rfl,
   ((c4_window_match_iff 20 ⟨"Event", "20/07", "", some 25⟩ 15).1).mpr (by decide)⟩

/-- C9: the whole batch (both `processReminders` calls of `main`, with
`now` captured once) is a pure function of the configuration and the
frozen now: two runs on the same inputs give identical output. -/
theorem c9_batch_deterministic (config : BrittoConfig) (now : GoTime)
    (out1 out2 : ProcResult) (h1 : out1 = runBatch config now)
    (h2 : out2 = runBatch config now) : out1 = out2 :=
  h1.trans h2.symm

/-- Witness for C9 at a concrete configuration and date. -/
theorem c9_batch_deterministic_witness :
    runBatch ⟨[⟨"John Doe", "25/12/1985", "", none⟩],
        [⟨"Example Event", "31/12", "", none⟩], ⟨10, 15⟩, defaultTemplate⟩
        ⟨2024, 12, 20⟩
      = runBatch ⟨[⟨"John Doe", "25/12/1985", "", none⟩],
        [⟨"Example Event", "31/12", "", none⟩], ⟨10, 15⟩, defaultTemplate⟩
        ⟨2024, 12, 20⟩ :=
  c9_batch_deterministic _ ⟨2024, 12, 20⟩ _ _ rfl rfl

/-- C6: in src/.britto-ng.go, a one-time reminder whose date text is the
5-character yearless form fails to resolve with the missing-year error,
and the batch continues: the entry contributes exactly one diagnostic
naming it, and the lines and diagnostics of all remaining entries are
unchanged. -/
theorem c6_one_time_missing_year (s : String) (hs : s.data.length = 5)
    (name message : String) (rest : List NG.Reminder) (now : GoTime)
    (defaultMsg : String) (isB : Bool) (rangeDays : Int) :
    NG.parseDate s now true = .error "one-time event requires year specification" ∧
    NG.processReminders (⟨name, s, message, true⟩ :: rest) now defaultMsg isB rangeDays =
      ((NG.processReminders rest now defaultMsg isB rangeDays).1,
       ("[" ++ name ++ "]: Failed to parse date: one-time event requires year specification")
         :: (NG.processReminders rest now defaultMsg isB rangeDays).2) := by
  have hp : NG.parseDate s now true
      = .error "one-time event requires year specification" := by
    unfold NG.parseDate
    rw [if_neg (by omega : ¬ s.data.length = 0), if_pos hs, if_pos rfl]
  refine ⟨hp, ?_⟩
  simp only [NG.processReminders, hp]
  rw [String.append_assoc]
  rfl

/-- Witness for C6, at the spec's Scenario D ("31/12", one-time), with a
second entry whose processing is visibly unaffected. -/
theorem c6_one_time_missing_year_witness :
    NG.parseDate "31/12" ⟨2024, 12, 20⟩ true
      = .error "one-time event requires year specification" ∧
    NG.processReminders
        [⟨"X", "31/12", "", true⟩, ⟨"Y", "20/12", "", false⟩]
        ⟨2024, 12, 20⟩ "Reminder" false 15 =
      ((NG.processReminders [⟨"Y", "20/12", "", false⟩] ⟨2024, 12, 20⟩ "Reminder" false 15).1,
       ("[X]: Failed to parse date: one-time event requires year specification")
         :: (NG.processReminders [⟨"Y", "20/12", "", false⟩] ⟨2024, 12, 20⟩ "Reminder" false 15).2) :=
  c6_one_time_missing_year "31/12" (by decide) "X" "" [⟨"Y", "20/12", "", false⟩]
    ⟨2024, 12, 20⟩ "Reminder" false 15

/-- C8: February 29 date text is accepted — "29/02/1984" parses (1984 is
a leap year), as does yearless "29/02" — and the candidate occurrence
`time.Date(target, 2, 29)` built by the loop normalizes to March 1 of
the target year exactly when that year is not a leap year. -/
theorem c8_feb29_accepted_mar1_fallback (now : GoTime) (a : Nat) :
    parseDate "29/02/1984" now = .ok (⟨1984, 2, 29⟩, 1984) ∧
    parseDate "29/02" now = .ok (goDate now.year 2 29, now.year) ∧
    (isLeap (now.year + a) = false →
      candidate now ⟨1984, 2, 29⟩ a = ⟨now.year + a, 3, 1⟩) ∧
    (isLeap (now.year + a) = true →
      candidate now ⟨1984, 2, 29⟩ a = ⟨now.year + a, 2, 29⟩) := by
  refine ⟨rfl, rfl, ?_, ?_⟩
  · intro hL
    simp [candidate, goDate, daysInMonth, hL]
  · intro hL
    simp [candidate, goDate, daysInMonth, hL]

/-- Witness for C8: from 2024-12-20, the next-year candidate for a
Feb 29 date falls on 2025-03-01 (2025 is not a leap year). -/
theorem c8_feb29_accepted_mar1_fallback_witness :
    parseDate "29/02/1984" ⟨2024, 12, 20⟩ = .ok (⟨1984, 2, 29⟩, 1984) ∧
    candidate ⟨2024, 12, 20⟩ ⟨1984, 2, 29⟩ 1 = ⟨2025, 3, 1⟩ :=
  ⟨(c8_feb29_accepted_mar1_fallback ⟨2024, 12, 20⟩ 1).1,
   (c8_feb29_accepted_mar1_fallback ⟨2024, 12, 20⟩ 1).2.2.1 (by decide)⟩

/-- C10: per entry, at most one of the two candidate years produces
output: a successful window check on the current-year candidate
short-circuits the loop (the break), and a processed single entry prints
at most two lines — one primary line plus the optional message line —
and at most one line when its message is empty. -/
theorem c10_at_most_one_candidate_printed (r : Reminder) (now : GoTime) (isB : Bool)
    (dR : Int) (cfg : TemplateConfig) (date : GoTime) (res : Int × GoTime) :
    (occCheck now (effectiveRange r dR) (candidate now date 0) = some res →
      pickOccurrence now date (effectiveRange r dR) = some res) ∧
    (processReminders [r] now isB dR cfg).lines.length ≤ 2 ∧
    (r.message = "" → (processReminders [r] now isB dR cfg).lines.length ≤ 1) := by
  refine ⟨?_, ?_⟩
  · intro h
    unfold pickOccurrence
    rw [h]
  · cases hx : entryOutcome r now isB dR cfg with
    | diag m =>
      rw [processReminders_cons_diag r [] now isB dR cfg m hx]
      simp [processReminders]
    | silent =>
      rw [processReminders_cons_silent r [] now isB dR cfg hx]
      simp [processReminders]
    | printed ls =>
      rw [processReminders_cons_printed r [] now isB dR cfg ls hx]
      obtain ⟨dU, nd, yr, hpr⟩ := entryOutcome_printed_inv r now isB dR cfg ls hx
      have hlen := printReminder_ok_lines r isB cfg dU nd yr ls hpr
      simp only [processReminders, List.append_nil]
      exact ⟨hlen.1, hlen.2⟩
    | fatalT e =>
      rw [processReminders_cons_fatal r [] now isB dR cfg e hx]
      simp

/-- Witness for C10: a matched current-year candidate short-circuits the
loop, and a message-less entry prints at most one line. -/
theorem c10_at_most_one_candidate_printed_witness :
    pickOccurrence ⟨2024, 12, 20⟩ ⟨2024, 12, 25⟩ 10 = some (5, ⟨2024, 12, 25⟩) ∧
    (processReminders [⟨"John Doe", "25/12/2024", "", none⟩] ⟨2024, 12, 20⟩ true 10
        defaultTemplate).lines.length ≤ 1 :=
  ⟨(c10_at_most_one_candidate_printed ⟨"John Doe", "25/12/2024", "", none⟩ ⟨2024, 12, 20⟩
      true 10 defaultTemplate ⟨2024, 12, 25⟩ (5, ⟨2024, 12, 25⟩)).1 (by decide),
   (c10_at_most_one_candidate_printed ⟨"John Doe", "25/12/2024", "", none⟩ ⟨2024, 12, 20⟩
      true 10 defaultTemplate ⟨2024, 12, 25⟩ (5, ⟨2024, 12, 25⟩)).2.2 rfl⟩

/-- C2 counterexample: with the Birthday template malformed (an unclosed
action), the run does NOT abort before producing output. The first entry
renders through the intact zero-age template and its line is printed;
the fatal template error only fires when the second entry needs the
broken template, so partial output exists when the run dies. -/
theorem c2_counterexample_partial_output_before_fatal :
    processReminders
        [⟨"A", "25/12/2024", "", none⟩, ⟨"B", "01/01/2024", "", some 15⟩]
        ⟨2024, 12, 20⟩ true 10
        { defaultTemplate with birthday0 := "ZERO", birthday := "\x7b\x7b.Name" }
      = ⟨["ZERO"], [], some "Failed to parse template"⟩ ∧
    (["ZERO"] : List String) ≠ [] := by
  constructor
  · rfl
  · simp

/-- C2 amended: an unparseable template string is fatal for the whole
run, but it is surfaced lazily, at the first entry whose rendering uses
the broken template: processing stops exactly there with the fatal
message, the output of the entries before it is kept (it may already
have been emitted), and the entries after it are never processed. -/
theorem c2_template_fatal_at_first_use (now : GoTime) (isB : Bool) (dR : Int)
    (cfg : TemplateConfig) (xs ys : List Reminder) (x : Reminder) (e : String)
    (hxs : (processReminders xs now isB dR cfg).fatal = none)
    (hx : entryOutcome x now isB dR cfg = .fatalT e) :
    processReminders (xs ++ x :: ys) now isB dR cfg =
      ⟨(processReminders xs now isB dR cfg).lines,
       (processReminders xs now isB dR cfg).diags, some e⟩ := by
  rw [processReminders_append xs (x :: ys) now isB dR cfg hxs,
    processReminders_cons_fatal x ys now isB dR cfg e hx]
  simp

/-- Witness for C2's amended claim, at the counterexample configuration
extended with a trailing entry that is never processed. -/
theorem c2_template_fatal_at_first_use_witness :
    processReminders
        [⟨"A", "25/12/2024", "", none⟩, ⟨"B", "01/01/2024", "", some 15⟩,
         ⟨"C", "20/12/2024", "", none⟩]
        ⟨2024, 12, 20⟩ true 10
        { defaultTemplate with birthday0 := "ZERO", birthday := "\x7b\x7b.Name" }
      = ⟨(processReminders [⟨"A", "25/12/2024", "", none⟩] ⟨2024, 12, 20⟩ true 10
            { defaultTemplate with birthday0 := "ZERO", birthday := "\x7b\x7b.Name" }).lines,
         (processReminders [⟨"A", "25/12/2024", "", none⟩] ⟨2024, 12, 20⟩ true 10
            { defaultTemplate with birthday0 := "ZERO", birthday := "\x7b\x7b.Name" }).diags,
         some "Failed to parse template"⟩ :=
  c2_template_fatal_at_first_use ⟨2024, 12, 20⟩ true 10
    { defaultTemplate with birthday0 := "ZERO", birthday := "\x7b\x7b.Name" }
    [⟨"A", "25/12/2024", "", none⟩] [⟨"C", "20/12/2024", "", none⟩]
    ⟨"B", "01/01/2024", "", some 15⟩ "Failed to parse template" (by rfl) (by rfl)

/-- C3 counterexample: for the valid yearless text "01/01" with
now = 2024-12-20, resolve yields origin year 2024 — the current year,
not an absent year — and the reminder is rendered through the AGED
birthday template (the occurrence rolled to 2025, so the computed age is
1, not 0), contradicting the claim that yearless text always takes the
zero-age template path. -/
theorem c3_counterexample_aged_template_on_wrap :
    parseDate "01/01" ⟨2024, 12, 20⟩ = .ok (⟨2024, 1, 1⟩, 2024) ∧
    processReminders [⟨"Alice", "01/01", "", some 15⟩] ⟨2024, 12, 20⟩ true 10
        { defaultTemplate with birthday0 := "ZERO", birthday := "AGED" }
      = ⟨["AGED"], [], none⟩ := by
  constructor
  · rfl
  · rfl

/-- C7: the processor walks the reminder list once, in order, and treats
entries independently. A date-resolution failure contributes exactly one
diagnostic carrying the entry's name and the failure reason and leaves
the outcome of every other entry untouched (the tail's lines,
diagnostics and fatal state are unchanged); and, absent a fatal template
error, the output of a concatenated batch is the concatenation of the
two batches' outputs in input order — no reordering. -/
theorem c7_per_entry_isolation_and_order (now : GoTime) (isB : Bool) (dR : Int)
    (cfg : TemplateConfig) (r : Reminder) (rest : List Reminder) (e : String)
    (xs ys : List Reminder)
    (herr : parseDate r.date now = .error e)
    (hnf : (processReminders xs now isB dR cfg).fatal = none) :
    processReminders (r :: rest) now isB dR cfg =
      ⟨(processReminders rest now isB dR cfg).lines,
       ("[" ++ r.name ++ "]: Failed to parse date: " ++ e)
         :: (processReminders rest now isB dR cfg).diags,
       (processReminders rest now isB dR cfg).fatal⟩ ∧
    processReminders (xs ++ ys) now isB dR cfg =
      ⟨(processReminders xs now isB dR cfg).lines
         ++ (processReminders ys now isB dR cfg).lines,
       (processReminders xs now isB dR cfg).diags
         ++ (processReminders ys now isB dR cfg).diags,
       (processReminders ys now isB dR cfg).fatal⟩ :=
  ⟨processReminders_cons_diag r rest now isB dR cfg _
      (entryOutcome_of_parse_error r now isB dR cfg e herr),
   processReminders_append xs ys now isB dR cfg hnf⟩

/-- Witness for C7: an entry with date text of invalid length is logged
by name and reason and the rest of the batch is processed unchanged, in
order. -/
theorem c7_per_entry_isolation_and_order_witness :
    processReminders
        [⟨"Bad", "2024", "", none⟩, ⟨"John Doe", "25/12/2024", "", none⟩]
        ⟨2024, 12, 20⟩ true 10 defaultTemplate =
      ⟨(processReminders [⟨"John Doe", "25/12/2024", "", none⟩]
          ⟨2024, 12, 20⟩ true 10 defaultTemplate).lines,
       ("[Bad]: Failed to parse date: invalid date format")
         :: (processReminders [⟨"John Doe", "25/12/2024", "", none⟩]
              ⟨2024, 12, 20⟩ true 10 defaultTemplate).diags,
       (processReminders [⟨"John Doe", "25/12/2024", "", none⟩]
          ⟨2024, 12, 20⟩ true 10 defaultTemplate).fatal⟩ ∧
    processReminders
        ([⟨"Bad", "2024", "", none⟩] ++ [⟨"John Doe", "25/12/2024", "", none⟩])
        ⟨2024, 12, 20⟩ true 10 defaultTemplate =
      ⟨(processReminders [⟨"Bad", "2024", "", none⟩] ⟨2024, 12, 20⟩ true 10
          defaultTemplate).lines
         ++ (processReminders [⟨"John Doe", "25/12/2024", "", none⟩]
              ⟨2024, 12, 20⟩ true 10 defaultTemplate).lines,
       (processReminders [⟨"Bad", "2024", "", none⟩] ⟨2024, 12, 20⟩ true 10
          defaultTemplate).diags
         ++ (processReminders [⟨"John Doe", "25/12/2024", "", none⟩]
              ⟨2024, 12, 20⟩ true 10 defaultTemplate).diags,
       (processReminders [⟨"John Doe", "25/12/2024", "", none⟩]
          ⟨2024, 12, 20⟩ true 10 defaultTemplate).fatal⟩ :=
  c7_per_entry_isolation_and_order ⟨2024, 12, 20⟩ true 10 defaultTemplate
    ⟨"Bad", "2024", "", none⟩ [⟨"John Doe", "25/12/2024", "", none⟩]
    "invalid date format" [⟨"Bad", "2024", "", none⟩]
    [⟨"John Doe", "25/12/2024", "", none⟩] (by rfl) (by rfl)

/-- C5: for every date that `parseDate` resolved and every valid frozen
`now`, the occurrence the loop works from (`nextOccurrence`) is not
strictly before `now`, its day offset is non-negative, it is the
earliest of the two candidates among those not strictly before `now`,
and whatever occurrence the loop actually selects for printing is
exactly that one, with the non-negative whole-day offset. -/
theorem c5_earliest_candidate_nonneg_offset (now : GoTime)
    (hnow : isValidCivil now = true) (s : String) (date : GoTime) (yr : Nat)
    (hres : parseDate s now = .ok (date, yr)) (rangeDays : Int) :
    absDay now ≤ absDay (nextOccurrence now date) ∧
    0 ≤ subDays (nextOccurrence now date) now ∧
    (∀ a : Nat, a ≤ 1 → absDay now ≤ absDay (candidate now date a) →
      absDay (nextOccurrence now date) ≤ absDay (candidate now date a)) ∧
    (∀ dU nd, pickOccurrence now date rangeDays = some (dU, nd) →
      nd = nextOccurrence now date ∧ dU = subDays nd now ∧ 0 ≤ dU) := by
  obtain ⟨hm1, hm2, hd1, hd2⟩ := parseDate_ok_bounds s now date yr hres
  obtain ⟨hy, _, _, _, _⟩ := (isValidCivil_iff now).mp hnow
  have hb1 : absDay now < absDay (candidate now date 1) := by
    have h1 := absDay_lt_next_of_valid now hnow
    have h2 := dayNumber_le_goDate_abs (now.year + 1) date.month date.day hm1 hm2 hd1 hd2
    show absDay now < absDay (goDate (now.year + 1) date.month date.day)
    omega
  have h01 : absDay (candidate now date 0) ≤ absDay (candidate now date 1) := by
    have h1 : absDay (goDate (now.year + 0) date.month date.day)
        < dayNumber (now.year + 0 + 1) 1 1 :=
      goDate_lt_next_year_start (now.year + 0) date.month date.day (by omega) hm1 hm2 hd1 hd2
    have h2 := dayNumber_le_goDate_abs (now.year + 1) date.month date.day hm1 hm2 hd1 hd2
    simp only [Nat.add_zero] at h1
    show absDay (goDate (now.year + 0) date.month date.day)
      ≤ absDay (goDate (now.year + 1) date.month date.day)
    simp only [Nat.add_zero]
    omega
  have hP1 : absDay now ≤ absDay (nextOccurrence now date) := by
    unfold nextOccurrence
    split_ifs with hbef
    · omega
    · simp only [goBefore, decide_eq_true_eq] at hbef
      omega
  refine ⟨hP1, ?_, ?_, ?_⟩
  · simp only [subDays]
    omega
  · intro a ha hana
    interval_cases a
    · unfold nextOccurrence
      split_ifs with hbef
      · simp only [goBefore, decide_eq_true_eq] at hbef
        omega
      · omega
    · unfold nextOccurrence
      split_ifs with hbef
      · omega
      · exact h01
  · intro dU nd hp
    unfold pickOccurrence at hp
    cases hc0 : occCheck now rangeDays (candidate now date 0) with
    | some res =>
      rw [hc0] at hp
      simp only [Option.some.injEq] at hp
      subst hp
      obtain ⟨hnd, hdu, hnb0, hge, hle⟩ :=
        occCheck_eq_some now (candidate now date 0) rangeDays dU nd hc0
      subst hnd
      have hnb : ¬ goBefore (candidate now date 0) now = true := by
        simp only [goBefore, decide_eq_true_eq]
        omega
      refine ⟨?_, hdu, hge⟩
      unfold nextOccurrence
      rw [if_neg hnb]
    | none =>
      rw [hc0] at hp
      obtain ⟨hnd, hdu, hnb1, hge, hle⟩ :=
        occCheck_eq_some now (candidate now date 1) rangeDays dU nd hp
      subst hnd
      by_cases hbef : goBefore (candidate now date 0) now = true
      · refine ⟨?_, hdu, hge⟩
        unfold nextOccurrence
        rw [if_pos hbef]
      · exfalso
        simp only [goBefore, decide_eq_true_eq] at hbef
        have hfar := occCheck_none_inv now (candidate now date 0) rangeDays hc0 (by omega)
        simp only [subDays] at hfar hdu
        omega

/-- Witness for C5 at the spec's Scenario A date: from 2024-12-20 the
selected occurrence for "25/12/1985" is 2024-12-25 at offset 5. -/
theorem c5_earliest_candidate_nonneg_offset_witness :
    0 ≤ subDays (nextOccurrence ⟨2024, 12, 20⟩ ⟨1985, 12, 25⟩) ⟨2024, 12, 20⟩ ∧
    (⟨2024, 12, 25⟩ : GoTime) = nextOccurrence ⟨2024, 12, 20⟩ ⟨1985, 12, 25⟩ ∧
    (5 : Int) = subDays ⟨2024, 12, 25⟩ ⟨2024, 12, 20⟩ :=
  ⟨(c5_earliest_candidate_nonneg_offset ⟨2024, 12, 20⟩ (by decide) "25/12/1985"
      ⟨1985, 12, 25⟩ 1985 (by rfl) 10).2.1,
   ((c5_earliest_candidate_nonneg_offset ⟨2024, 12, 20⟩ (by decide) "25/12/1985"
      ⟨1985, 12, 25⟩ 1985 (by rfl) 10).2.2.2 5 ⟨2024, 12, 25⟩ (by rfl)).1,
   ((c5_earliest_candidate_nonneg_offset ⟨2024, 12, 20⟩ (by decide) "25/12/1985"
      ⟨1985, 12, 25⟩ 1985 (by rfl) 10).2.2.2 5 ⟨2024, 12, 25⟩ (by rfl)).2.1⟩

/-- C3 amended: for every valid 5-character DD/MM dateText, resolve
yields originYear equal to now's year (not an absent year) together with
the month/day written in the text (normalized by `time.Date`), and a
birthday resolved from such text is rendered via the zero-age template
with age 0 when the selected occurrence falls in the current calendar
year, but via the aged template with age 1 when the occurrence rolls to
the following year. -/
theorem c3_yearless_age_by_occurrence_year (now : GoTime)
    (s : String) (dd mo : Nat) (hparse : goParseDDMM s.data = some (dd, mo))
    (hlen : s.data.length = 5) (date : GoTime) (yr : Nat)
    (hres : parseDate s now = .ok (date, yr)) (cfg : TemplateConfig)
    (rangeDays dU : Int) (nd : GoTime)
    (hpick : pickOccurrence now date rangeDays = some (dU, nd)) :
    yr = now.year ∧ date = goDate now.year mo dd ∧
    (nd.year = now.year ∨ nd.year = now.year + 1) ∧
    (nd.year = now.year →
      birthdayAge nd yr = 0 ∧
      selectBirthdayTmpl cfg (birthdayAge nd yr) = cfg.birthday0) ∧
    (nd.year = now.year + 1 →
      birthdayAge nd yr = 1 ∧
      selectBirthdayTmpl cfg (birthdayAge nd yr) = cfg.birthday) := by
  have hok : date = goDate now.year mo dd ∧ yr = now.year := by
    unfold parseDate at hres
    rw [if_neg (by omega : ¬ s.data.length = 0), if_pos hlen, hparse] at hres
    simp only [Except.ok.injEq, Prod.mk.injEq] at hres
    exact ⟨hres.1.symm, hres.2.symm⟩
  obtain ⟨hdate, hyr⟩ := hok
  obtain ⟨hm1, hm2, hd1, hd2⟩ := parseDate_ok_bounds s now date yr hres
  have hyear : nd.year = now.year ∨ nd.year = now.year + 1 := by
    unfold pickOccurrence at hpick
    cases hc0 : occCheck now rangeDays (candidate now date 0) with
    | some res =>
      rw [hc0] at hpick
      simp only [Option.some.injEq] at hpick
      subst hpick
      obtain ⟨hnd, _, _, _, _⟩ :=
        occCheck_eq_some now (candidate now date 0) rangeDays dU nd hc0
      left
      rw [hnd]
      have hg := goDate_spec (now.year + 0) date.month date.day hm1 hm2 hd1 hd2
      show (goDate (now.year + 0) date.month date.day).year = now.year
      omega
    | none =>
      rw [hc0] at hpick
      obtain ⟨hnd, _, _, _, _⟩ :=
        occCheck_eq_some now (candidate now date 1) rangeDays dU nd hpick
      right
      rw [hnd]
      exact (goDate_spec (now.year + 1) date.month date.day hm1 hm2 hd1 hd2).1
  refine ⟨hyr, hdate, hyear, ?_, ?_⟩
  · intro h
    have hage : birthdayAge nd yr = 0 := by
      unfold birthdayAge
      rw [h, hyr]
      omega
    refine ⟨hage, ?_⟩
    rw [hage]
    simp [selectBirthdayTmpl]
  · intro h
    have hage : birthdayAge nd yr = 1 := by
      unfold birthdayAge
      rw [h, hyr]
      push_cast
      omega
    refine ⟨hage, ?_⟩
    rw [hage]
    simp [selectBirthdayTmpl]

/-- Witness for C3's amended claim: "01/01" seen from 2024-12-20 rolls
to 2025-01-01, giving age 1 and the aged template. -/
theorem c3_yearless_age_by_occurrence_year_witness :
    birthdayAge ⟨2025, 1, 1⟩ 2024 = 1 ∧
    selectBirthdayTmpl defaultTemplate (birthdayAge ⟨2025, 1, 1⟩ 2024)
      = defaultTemplate.birthday :=
  (c3_yearless_age_by_occurrence_year ⟨2024, 12, 20⟩ "01/01" 1 1 (by rfl) (by rfl)
    ⟨2024, 1, 1⟩ 2024 (by rfl) defaultTemplate 15 12 ⟨2025, 1, 1⟩ (by rfl)).2.2.2.2 rfl
